import Mathlib

/-!
Verification of the process-management core in kern/proc/proc.c.

The embedding is shallow: the global kernel state (the pid counter
base_pid and the global process array allprocs) is passed explicitly,
machine unsigned arithmetic is Nat with explicit reduction modulo 2^32,
allocation failure is driven by an explicit plan of Booleans (one per
allocation point, mirroring the NULL checks in the C code), and kernel
panics / failed assertions are explicit constructors of the result types.
The registry is modelled as the list of registered pids, in array order.
-/

/-! ## Unsigned 32-bit arithmetic of the C code -/

/-- Modulus of the C type unsigned (32-bit) used for array indices. -/
def U32 : Nat := 4294967296

/-- Unsigned subtraction of 1, wrapping at zero, as in the C expressions
array_num(procs) - 1 and probe - 1 on unsigned operands. -/
def usub1 (n : Nat) : Nat := (n + (U32 - 1)) % U32

/-! ## Binary search over the process array (procarray_proc_index_by_pid) -/

/-- Loop body of procarray_proc_index_by_pid (proc.c lines 84-102).
The registry is the list of stored pids.  Each iteration compares pid
with the entry at probe = (high + low) / 2 in unsigned arithmetic.
Except.error models an execution that does not return normally: the
probe index is outside the array (array_get is out of bounds, which in
OS/161 fails an assertion), or the fuel ran out before the loop exited.
Except.ok r is a normal return with unsigned value r (a found index, or
the sentinel (unsigned)(-1) from the final return -1). -/
def procIndexGo (procs : List Nat) (pid : Nat) : Nat → Nat → Nat → Except Unit Nat
  | 0, _, _ => Except.error ()
  | fuel + 1, low, high =>
    if low ≤ high then
      let probe := ((high + low) % U32) / 2
      match procs[probe]? with
      | none => Except.error ()
      | some p =>
        if pid = p then Except.ok probe
        else if pid < p then procIndexGo procs pid fuel low (usub1 probe)
        else procIndexGo procs pid fuel ((probe + 1) % U32) high
    else Except.ok (U32 - 1)

/-- procarray_proc_index_by_pid (proc.c lines 84-102): unsigned low = 0,
unsigned high = array_num(procs) - 1 (wrapping to 2^32 - 1 on an empty
array), then the search loop.  Fuel 64 exceeds any possible number of
iterations before the loop finds, exits, or probes out of bounds. -/
def procarray_proc_index_by_pid (procs : List Nat) (pid : Nat) : Except Unit Nat :=
  procIndexGo procs pid 64 0 (usub1 procs.length)

/-- Outcome of procarray_proc_by_pid: either a process (pid) fetched from
the array, or an out-of-bounds array_get (assertion failure / wild read). -/
inductive LookupOut
  | found (p : Nat)
  | outOfBounds
  deriving DecidableEq

/-- procarray_proc_by_pid (proc.c lines 108-110): passes the unsigned
result of the index search directly to array_get with no not-found check. -/
def procarray_proc_by_pid (procs : List Nat) (pid : Nat) : LookupOut :=
  match procarray_proc_index_by_pid procs pid with
  | Except.error _ => LookupOut.outOfBounds
  | Except.ok i =>
    match procs[i]? with
    | some p => LookupOut.found p
    | none => LookupOut.outOfBounds

/-! ## Global kernel state, pid generation, registry insert/remove -/

/-- The global mutable state of proc.c: the pid counter base_pid
(line 78, starts at 0) and the global array allprocs (line 75, starts
NULL; none models the NULL / uninitialized registry). -/
structure KernelState where
  base_pid : Nat
  allprocs : Option (List Nat)
  deriving DecidableEq

/-- Kernel state at boot: base_pid = 0, allprocs = NULL. -/
def initialKernel : KernelState := ⟨0, none⟩

/-- gen_pid (proc.c lines 162-164): return ++base_pid. -/
def gen_pid (k : KernelState) : Nat × KernelState :=
  (k.base_pid + 1, { k with base_pid := k.base_pid + 1 })

/-- procarray_allprocs_add_proc (proc.c lines 124-130): lazily create the
array when it is NULL, then append the new process at the end. -/
def procarray_allprocs_add_proc (reg : Option (List Nat)) (pid : Nat) : List Nat :=
  match reg with
  | none => [] ++ [pid]
  | some l => l ++ [pid]

/-- Tail of procarray_allprocs_remove_proc (proc.c lines 139-148) given
the binary-search outcome: remove the entry at the index the search
found, then, if the array became empty, destroy it and reset allprocs
to NULL.  Executions that do not complete (a search that probes out of
bounds, or array_remove on an out-of-range index, both of which panic)
are modelled as leaving the registry unchanged, since no post-state of
the operation exists. -/
def removeAt (l : List Nat) : Except Unit Nat → Option (List Nat)
  | Except.error _ => some l
  | Except.ok i =>
    if i < l.length then
      if (l.eraseIdx i).length = 0 then none else some (l.eraseIdx i)
    else some l

/-- procarray_allprocs_remove_proc (proc.c lines 139-148): binary-search
the pid and remove as above.  A NULL registry (a dereference that
panics, so the operation never completes) is modelled as unchanged. -/
def procarray_allprocs_remove_proc : Option (List Nat) → Nat → Option (List Nat)
  | none, _ => none
  | some l, pid => removeAt l (procarray_proc_index_by_pid l pid)

/-! ## The process descriptor and proc_create -/

/-- struct proc, with the fields proc.c manipulates.  Lock and cv handles
are modelled by whether the corresponding allocation is held (true =
non-NULL); the address space, current directory and thread members are
opaque handles (Nat). -/
structure ProcObj where
  p_id : Nat
  p_name : String
  p_threads : List Nat
  p_addrspace : Option Nat
  p_cwd : Option Nat
  p_did_exit : Bool
  p_exitcode : Int
  p_exit_lk : Bool
  p_wait_lk : Bool
  p_wait_cv : Bool
  p_children : List Nat
  deriving DecidableEq

/-- The allocation points of one proc_create call, in source order:
kmalloc of the descriptor, kstrdup of the name, lock_create of the exit
lock, lock_create of the wait lock, cv_create of the wait cv, and
array_create of the children array.  A field is true when that
allocation succeeds. -/
structure AllocPlan where
  procOk : Bool
  nameOk : Bool
  exitLkOk : Bool
  waitLkOk : Bool
  waitCvOk : Bool
  childrenOk : Bool
  deriving DecidableEq

/-- The allocation plan in which every allocation succeeds. -/
def allOkPlan : AllocPlan := ⟨true, true, true, true, true, true⟩

/-- Tags for the heap allocations proc_create makes, used to account for
what was allocated and what was freed during one call. -/
inductive Alloc
  | procMem
  | nameMem
  | exitLk
  | waitLk
  | waitCv
  | childrenArr
  deriving DecidableEq

/-- Result of one proc_create call: whether the call crashed (NULL
dereference), the returned descriptor (none = NULL), the allocations
made and freed during the call, and the kernel state at the end. -/
structure CreateRes where
  crashed : Bool
  ret : Option ProcObj
  made : List Alloc
  freed : List Alloc
  k : KernelState
  deriving DecidableEq

/-- proc_create (proc.c lines 169-233), followed literally.  In the
source, the checks after lock_create("p_wait_lk") (line 210) and after
cv_create("p_wait_cv") (line 218) both test proc->p_exit_lk, which is
already known non-NULL at those points, so a failed wait-lock or wait-cv
allocation is never detected: construction continues with a NULL handle
and the descriptor is still registered and returned.  The children array
from array_create (line 226) is dereferenced with no NULL check, so its
failure is a crash.  gen_pid has already run (line 199) by the time the
exit-lock check can fail, so failed calls can still consume a pid. -/
def proc_create (plan : AllocPlan) (name : String) (k : KernelState) : CreateRes :=
  if plan.procOk = false then
    ⟨false, none, [], [], k⟩
  else if plan.nameOk = false then
    ⟨false, none, [Alloc.procMem], [Alloc.procMem], k⟩
  else
    let pid := k.base_pid + 1
    let k1 : KernelState := { k with base_pid := pid }
    if plan.exitLkOk = false then
      ⟨false, none, [Alloc.procMem, Alloc.nameMem], [Alloc.nameMem, Alloc.procMem], k1⟩
    else
      let made1 := [Alloc.procMem, Alloc.nameMem, Alloc.exitLk]
        ++ (if plan.waitLkOk then [Alloc.waitLk] else [])
        ++ (if plan.waitCvOk then [Alloc.waitCv] else [])
      if plan.childrenOk = false then
        ⟨true, none, made1, [], k1⟩
      else
        ⟨false,
         some ⟨pid, name, [], none, none, false, 0, true, plan.waitLkOk, plan.waitCvOk, []⟩,
         made1 ++ [Alloc.childrenArr], [],
         ⟨pid, some (procarray_allprocs_add_proc k1.allprocs pid)⟩⟩

/-! ## Sequences of create / destroy operations -/

/-- One lifecycle operation on the global state: a proc_create call with
a given allocation plan, or a proc_destroy of the process with a given
pid (proc.c lines 238-322; its only effect on the global state is the
procarray_allprocs_remove_proc call at line 252). -/
inductive ProcOp
  | create (plan : AllocPlan)
  | destroy (pid : Nat)
  deriving DecidableEq

/-- Effect of one operation on the global kernel state. -/
def execOp (op : ProcOp) (k : KernelState) : KernelState :=
  match op with
  | ProcOp.create plan => (proc_create plan "p" k).k
  | ProcOp.destroy pid =>
    { k with allprocs := procarray_allprocs_remove_proc k.allprocs pid }

/-- The pids handed out by gen_pid during one operation: proc_create
reaches the gen_pid call exactly when the descriptor and name
allocations succeed; proc_destroy never calls gen_pid. -/
def issuedBy (op : ProcOp) (k : KernelState) : List Nat :=
  match op with
  | ProcOp.create plan => if plan.procOk && plan.nameOk then [k.base_pid + 1] else []
  | ProcOp.destroy _ => []

/-- Run a sequence of operations from a state; returns the final state
and the concatenated list of pids issued by gen_pid, in call order. -/
def runOps : List ProcOp → KernelState → KernelState × List Nat
  | [], k => (k, [])
  | op :: ops, k =>
    let ps := issuedBy op k
    let r := runOps ops (execOp op k)
    (r.1, ps ++ r.2)

/-! ## proc_create_runprogram (proc.c lines 352-406) -/

/-- Events of the working-directory section of proc_create_runprogram,
in program order: spinlock_acquire / spinlock_release on
curproc->p_lock, the read of curproc->p_cwd, the VOP_INCREF call, and
the write of proc->p_cwd. -/
inductive Ev
  | acquire
  | release
  | readCwd
  | incref
  | writeCwd

/-- VOP_INCREF on vnode v: bump that vnode's external reference count. -/
def vop_incref (v : Nat) (rc : Nat → Nat) : Nat → Nat :=
  fun x => if x = v then rc x + 1 else rc x

/-- The VFS section of proc_create_runprogram (proc.c lines 379-394),
as the event trace it performs together with its data effect (the value
stored into proc->p_cwd and the new vnode reference counts).  With UW
defined (lines 383-386) no lock is taken: the code reads
curproc->p_cwd and, when it is non-NULL, calls VOP_INCREF and copies
the pointer.  Without UW (lines 388-393) the same read / increment /
copy happens between spinlock_acquire and spinlock_release, so the
spinlock is held across VOP_INCREF. -/
def runprogram_cwd_section (uw : Bool) (curCwd : Option Nat) (rc : Nat → Nat) :
    List Ev × Option Nat × (Nat → Nat) :=
  match curCwd with
  | none =>
    (if uw then [Ev.readCwd] else [Ev.acquire, Ev.readCwd, Ev.release], none, rc)
  | some v =>
    (if uw then [Ev.readCwd, Ev.incref, Ev.writeCwd]
     else [Ev.acquire, Ev.readCwd, Ev.incref, Ev.writeCwd, Ev.release],
     some v, vop_incref v rc)

/-- Result of proc_create_runprogram: the returned descriptor, the vnode
reference counts after the call, the kernel state after the call, and
the event trace of the working-directory section. -/
structure RunRes where
  ret : Option ProcObj
  refcnt : Nat → Nat
  k : KernelState
  lockTrace : List Ev

/-- proc_create_runprogram (proc.c lines 352-406): call proc_create; on
NULL return NULL; otherwise set p_addrspace to NULL (line 375) and run
the working-directory section on the calling process's p_cwd.  curCwd
is curproc->p_cwd and rc the external vnode reference counts. -/
def proc_create_runprogram (uw : Bool) (plan : AllocPlan) (name : String)
    (curCwd : Option Nat) (rc : Nat → Nat) (k : KernelState) : RunRes :=
  let c := proc_create plan name k
  match c.ret with
  | none => ⟨none, rc, c.k, []⟩
  | some p =>
    let s := runprogram_cwd_section uw curCwd rc
    ⟨some { p with p_addrspace := none, p_cwd := s.2.1 }, s.2.2, c.k, s.1⟩

/-- True when the trace performs an incref at a moment when the lock
depth is positive, starting from depth d. -/
def increfWhileLocked : List Ev → Nat → Bool
  | [], _ => false
  | Ev.acquire :: tr, d => increfWhileLocked tr (d + 1)
  | Ev.release :: tr, d => increfWhileLocked tr (d - 1)
  | Ev.incref :: tr, d => decide (0 < d) || increfWhileLocked tr d
  | _ :: tr, d => increfWhileLocked tr d

/-- Number of spinlock acquisitions in a trace. -/
def countAcquires : List Ev → Nat
  | [] => 0
  | Ev.acquire :: tr => countAcquires tr + 1
  | _ :: tr => countAcquires tr

/-! ## Thread binding: proc_addthread and proc_remthread -/

/-- The state proc_addthread / proc_remthread touch: one descriptor's
p_threads member array (as the list of bound thread handles) and one
thread's t_proc back-reference (the pid of its owning process, or
none for NULL). -/
structure BindState where
  p_threads : List Nat
  t_proc : Option Nat
  deriving DecidableEq

/-- Outcome of proc_addthread: a failed KASSERT (kernel panic), an error
return from threadarray_add (nonzero result propagated, state carried
unchanged), or success. -/
inductive AddOut
  | panicked
  | failed (s : BindState)
  | ok (s : BindState)
  deriving DecidableEq

/-- proc_addthread (proc.c lines 412-425): KASSERT(t->t_proc == NULL);
under the spinlock, threadarray_add appends the thread (allocOk models
whether its internal allocation succeeds); a nonzero result is returned
with nothing else done; on success t->t_proc is set to the process. -/
def proc_addthread (allocOk : Bool) (procPid t : Nat) (s : BindState) : AddOut :=
  match s.t_proc with
  | some _ => AddOut.panicked
  | none =>
    if allocOk then AddOut.ok ⟨s.p_threads ++ [t], some procPid⟩
    else AddOut.failed s

/-- Outcome of proc_remthread: a kernel panic (NULL back-reference
KASSERT, or the thread missing from its process's member array), or
success. -/
inductive RemOut
  | panicked
  | ok (s : BindState)
  deriving DecidableEq

/-- Index of the first occurrence of thread t in the member array, as
scanned by the loop in proc_remthread. -/
def findThread (t : Nat) : List Nat → Option Nat
  | [] => none
  | x :: xs => if x = t then some 0 else (findThread t xs).map (fun i => i + 1)

/-- proc_remthread (proc.c lines 431-452): KASSERT(proc != NULL) on the
back-reference; scan p_threads for the thread; when found, remove that
slot and clear t->t_proc; when not found, panic. -/
def proc_remthread (t : Nat) (s : BindState) : RemOut :=
  match s.t_proc with
  | none => RemOut.panicked
  | some _ =>
    match findThread t s.p_threads with
    | some i => RemOut.ok ⟨s.p_threads.eraseIdx i, none⟩
    | none => RemOut.panicked

/-! ## curproc_setas (proc.c lines 480-489) -/

/-- curproc_setas: under the spinlock, read the old p_addrspace, store
the new one, and return the old.  The current process is passed
explicitly. -/
def curproc_setas (newas : Option Nat) (proc : ProcObj) : Option Nat × ProcObj :=
  (proc.p_addrspace, { proc with p_addrspace := newas })

/-! ## Helper lemmas -/

/-- Scanning a member array that does not contain t, followed by t,
finds t exactly at the old length. -/
theorem findThread_append_self (t : Nat) (xs : List Nat) (h : t ∉ xs) :
    findThread t (xs ++ [t]) = some xs.length := by
  induction xs with
  | nil => simp [findThread]
  | cons x xs ih =>
    rw [List.mem_cons, not_or] at h
    have hx : ¬(x = t) := fun hxt => h.1 hxt.symm
    simp [findThread, hx, ih h.2]

/-- Removing the slot at the old length from a member array extended by
one element restores the original array. -/
theorem eraseIdx_append_length (xs : List Nat) (t : Nat) :
    (xs ++ [t]).eraseIdx xs.length = xs := by
  induction xs with
  | nil => rfl
  | cons x xs ih => simp [List.eraseIdx_cons_succ, ih]

/-- The kernel state proc_create leaves behind is one of: unchanged (the
descriptor or name allocation failed before gen_pid ran), the pid counter
bumped with the registry untouched (a later failure or crash), or the pid
counter bumped and the new pid appended to the registry (success). -/
theorem proc_create_k (plan : AllocPlan) (name : String) (k : KernelState) :
    (proc_create plan name k).k = k ∨
    (proc_create plan name k).k = { k with base_pid := k.base_pid + 1 } ∨
    (proc_create plan name k).k =
      ⟨k.base_pid + 1,
       some (procarray_allprocs_add_proc k.allprocs (k.base_pid + 1))⟩ := by
  simp only [proc_create]
  repeat' split
  all_goals first
    | exact Or.inl rfl
    | exact Or.inr (Or.inl rfl)
    | exact Or.inr (Or.inr rfl)

/-- proc_create never decreases the pid counter. -/
theorem proc_create_base_pid_le (plan : AllocPlan) (name : String) (k : KernelState) :
    k.base_pid ≤ (proc_create plan name k).k.base_pid := by
  rcases proc_create_k plan name k with h | h | h <;> rw [h] <;> simp

/-- No operation decreases the pid counter. -/
theorem execOp_base_pid_le (op : ProcOp) (k : KernelState) :
    k.base_pid ≤ (execOp op k).base_pid := by
  cases op with
  | create plan => exact proc_create_base_pid_le plan "p" k
  | destroy pid => exact le_refl _

/-- When proc_create reaches gen_pid (descriptor and name allocations
succeeded), the pid counter ends up exactly one higher. -/
theorem proc_create_base_pid_of_issue (plan : AllocPlan) (name : String)
    (k : KernelState) (h : (plan.procOk && plan.nameOk) = true) :
    (proc_create plan name k).k.base_pid = k.base_pid + 1 := by
  rw [Bool.and_eq_true] at h
  simp only [proc_create, h.1, h.2]
  repeat' split
  all_goals first | rfl | simp_all

/-- Every pid issued while running a sequence of operations is strictly
above the pid counter the run started with. -/
theorem runOps_issued_gt (ops : List ProcOp) (k : KernelState) :
    ∀ p ∈ (runOps ops k).2, k.base_pid < p := by
  induction ops generalizing k with
  | nil => intro p hp; simp [runOps] at hp
  | cons op ops ih =>
    intro p hp
    simp only [runOps, List.mem_append] at hp
    cases hp with
    | inl h =>
      cases op with
      | destroy pid => simp [issuedBy] at h
      | create plan =>
        simp only [issuedBy] at h
        split at h
        · simp only [List.mem_singleton] at h
          omega
        · simp at h
    | inr h =>
      have h1 := ih (execOp op k) p h
      have h2 := execOp_base_pid_le op k
      omega

/-- The pids issued while running a sequence of operations are strictly
increasing in issue order. -/
theorem runOps_issued_pairwise (ops : List ProcOp) (k : KernelState) :
    (runOps ops k).2.Pairwise (· < ·) := by
  induction ops generalizing k with
  | nil => simp [runOps]
  | cons op ops ih =>
    simp only [runOps]
    refine List.pairwise_append.2 ⟨?_, ih (execOp op k), ?_⟩
    · cases op with
      | destroy pid => simp [issuedBy]
      | create plan =>
        simp only [issuedBy]
        split
        · exact List.pairwise_singleton _ _
        · exact List.Pairwise.nil
    · intro a ha b hb
      have hb2 := runOps_issued_gt ops (execOp op k) b hb
      cases op with
      | destroy pid => simp [issuedBy] at ha
      | create plan =>
        simp only [issuedBy] at ha
        split at ha
        · simp only [List.mem_singleton] at ha
          subst ha
          have h1 : (execOp (ProcOp.create plan) k).base_pid = k.base_pid + 1 :=
            proc_create_base_pid_of_issue plan "p" k (by assumption)
          omega
        · simp at ha

/-- The registry invariant: whenever the global array exists, its pids
are strictly ascending and all of them are at most the pid counter. -/
def RegInv (k : KernelState) : Prop :=
  ∀ l, k.allprocs = some l → l.Pairwise (· < ·) ∧ ∀ x ∈ l, x ≤ k.base_pid

/-- The boot state satisfies the registry invariant. -/
theorem regInv_initial : RegInv initialKernel := by
  intro l hl
  simp [initialKernel] at hl

/-- Each create / destroy operation preserves the registry invariant. -/
theorem regInv_execOp (op : ProcOp) (k : KernelState) (h : RegInv k) :
    RegInv (execOp op k) := by
  cases op with
  | create plan =>
    show RegInv (proc_create plan "p" k).k
    rcases proc_create_k plan "p" k with hk | hk | hk <;> rw [hk]
    · exact h
    · intro l hl
      obtain ⟨hp, hb⟩ := h l hl
      exact ⟨hp, fun x hx => le_trans (hb x hx) (Nat.le_succ _)⟩
    · intro l hl
      have hl2 := Option.some.inj hl
      subst hl2
      cases hk2 : k.allprocs with
      | none =>
        simp only [procarray_allprocs_add_proc, hk2, List.nil_append]
        exact ⟨List.pairwise_singleton _ _, by simp⟩
      | some l0 =>
        obtain ⟨hp, hb⟩ := h l0 hk2
        simp only [procarray_allprocs_add_proc, hk2]
        constructor
        · refine List.pairwise_append.2 ⟨hp, List.pairwise_singleton _ _, ?_⟩
          intro a ha b hb2
          simp only [List.mem_singleton] at hb2
          subst hb2
          exact Nat.lt_succ_of_le (hb a ha)
        · intro x hx
          rcases List.mem_append.1 hx with hx | hx
          · exact le_trans (hb x hx) (Nat.le_succ _)
          · simp only [List.mem_singleton] at hx
            subst hx
            exact le_refl _
  | destroy pid =>
    intro l hl
    show l.Pairwise (· < ·) ∧ ∀ x ∈ l, x ≤ k.base_pid
    have hl2 : procarray_allprocs_remove_proc k.allprocs pid = some l := hl
    cases hk : k.allprocs with
    | none =>
      rw [hk] at hl2
      exact absurd hl2 (by simp [procarray_allprocs_remove_proc])
    | some l0 =>
      obtain ⟨hp, hb⟩ := h l0 hk
      rw [hk] at hl2
      rw [procarray_allprocs_remove_proc] at hl2
      cases hs : procarray_proc_index_by_pid l0 pid with
      | error e =>
        rw [hs] at hl2
        rw [removeAt] at hl2
        have he : l0 = l := Option.some.inj hl2
        subst he
        exact ⟨hp, hb⟩
      | ok i =>
        rw [hs] at hl2
        rw [removeAt] at hl2
        by_cases hi : i < l0.length
        · rw [if_pos hi] at hl2
          by_cases hz : (l0.eraseIdx i).length = 0
          · rw [if_pos hz] at hl2
            exact absurd hl2 (by simp)
          · rw [if_neg hz] at hl2
            have he : l0.eraseIdx i = l := Option.some.inj hl2
            subst he
            have hsub := List.eraseIdx_sublist l0 i
            exact ⟨hp.sublist hsub, fun x hx => hb x (hsub.subset hx)⟩
        · rw [if_neg hi] at hl2
          have he : l0 = l := Option.some.inj hl2
          subst he
          exact ⟨hp, hb⟩

/-- Running any sequence of operations preserves the registry invariant. -/
theorem regInv_runOps (ops : List ProcOp) (k : KernelState) (h : RegInv k) :
    RegInv (runOps ops k).1 := by
  induction ops generalizing k with
  | nil => exact h
  | cons op ops ih => exact ih (execOp op k) (regInv_execOp op k h)

/-! ## The claims -/

/-- C1: the lookup path is claimed to return the matching descriptor iff
registered and not-found otherwise, with no out-of-bounds access.  The
code violates this: on an empty registry high = 0u - 1 wraps to
2^32 - 1 and the loop probes index 2^31 - 1; when the search narrows
past index 0 (every pid below all registered pids, including pid 0)
high = probe - 1 wraps the same way; and on a not-found pid the index
function returns (unsigned)(-1), which procarray_proc_by_pid feeds
straight to array_get.  All four concrete executions below end in an
out-of-bounds array_get instead of a not-found result. -/
theorem c1_lookup_probes_out_of_bounds :
    procarray_proc_by_pid [] 1 = LookupOut.outOfBounds ∧
    procarray_proc_by_pid [2] 1 = LookupOut.outOfBounds ∧
    procarray_proc_by_pid [2] 0 = LookupOut.outOfBounds ∧
    procarray_proc_by_pid [1, 2] 3 = LookupOut.outOfBounds := by
  refine ⟨by decide, by decide, by decide, by decide⟩

/-- C2: the claim says every allocation failure in proc_create unwinds
all earlier allocations of the call and returns failure.  The code
violates this: when lock_create for p_wait_lk fails (all earlier
allocations succeeding), the NULL check on line 210 tests p_exit_lk
instead of p_wait_lk, so the failure is undetected: the call returns a
descriptor (not NULL) whose wait lock is NULL, frees nothing, and still
registers the new pid in the global array. -/
theorem c2_wait_lock_failure_not_unwound :
    (proc_create ⟨true, true, true, false, true, true⟩ "p" initialKernel).ret =
      some ⟨1, "p", [], none, none, false, 0, true, false, true, []⟩ ∧
    (proc_create ⟨true, true, true, false, true, true⟩ "p" initialKernel).freed = [] ∧
    (proc_create ⟨true, true, true, false, true, true⟩ "p" initialKernel).k.allprocs =
      some [1] :=
  ⟨rfl, rfl, rfl⟩

/-- C3 counterexample: the claim says the lock is never held across
VOP_INCREF in any execution of proc_create_runprogram with a non-null
working directory.  In the non-UW configuration of the source (lines
388-393) the spinlock is acquired before the cwd read and released only
after VOP_INCREF, so this concrete execution performs the increment
with the lock held. -/
theorem c3_nonuw_incref_under_lock :
    increfWhileLocked
      (proc_create_runprogram false allOkPlan "p" (some 0) (fun _ => 0)
        initialKernel).lockTrace 0 = true := rfl

/-- C3 (amended): in the UW configuration, the one this repository
builds, proc_create_runprogram does not acquire the short lock at all
in the working-directory section (the comment at lines 380-382 explains
that holding it would be wrong because VOP_INCREF may block), so in
every execution the lock is never held across VOP_INCREF; the claimed
take-the-lock-then-release-before-increment discipline does not appear,
there is simply no acquisition. -/
theorem c3_uw_no_lock_across_incref (plan : AllocPlan) (name : String)
    (curCwd : Option Nat) (rc : Nat → Nat) (k : KernelState) :
    increfWhileLocked
      (proc_create_runprogram true plan name curCwd rc k).lockTrace 0 = false ∧
    countAcquires (proc_create_runprogram true plan name curCwd rc k).lockTrace = 0 := by
  cases hc : (proc_create plan name k).ret with
  | none =>
    simp only [proc_create_runprogram, hc]
    exact ⟨rfl, rfl⟩
  | some p =>
    cases curCwd with
    | none =>
      simp only [proc_create_runprogram, hc, runprogram_cwd_section]
      exact ⟨rfl, rfl⟩
    | some v =>
      simp only [proc_create_runprogram, hc, runprogram_cwd_section]
      exact ⟨rfl, rfl⟩

/-- C4: after any finite sequence of proc_create / proc_destroy calls
from the boot state, whenever the global registry exists its pids are
in strictly ascending order. -/
theorem c4_registry_sorted (ops : List ProcOp) (l : List Nat)
    (h : (runOps ops initialKernel).1.allprocs = some l) :
    l.Pairwise (· < ·) :=
  ((regInv_runOps ops initialKernel regInv_initial) l h).1

/-- C4 witness: two creates followed by destroying pid 1 leave the
registry as the sorted list with the single pid 2. -/
theorem c4_registry_sorted_witness :
    (runOps [ProcOp.create allOkPlan, ProcOp.create allOkPlan, ProcOp.destroy 1]
      initialKernel).1.allprocs = some [2] ∧
    List.Pairwise (· < ·) [2] :=
  ⟨by decide,
   c4_registry_sorted [ProcOp.create allOkPlan, ProcOp.create allOkPlan,
     ProcOp.destroy 1] [2] (by decide)⟩

/-- C5: across any sequence of create / destroy operations from boot,
the pids issued by gen_pid are strictly increasing in issue order (so
never reused), every issued pid is positive, and a destroy never
changes the counter. -/
theorem c5_pids_strictly_increasing (ops : List ProcOp) :
    (runOps ops initialKernel).2.Pairwise (· < ·) ∧
    (∀ p ∈ (runOps ops initialKernel).2, 0 < p) ∧
    (∀ (pid : Nat) (k : KernelState),
      (execOp (ProcOp.destroy pid) k).base_pid = k.base_pid) :=
  ⟨runOps_issued_pairwise ops initialKernel,
   fun p hp => runOps_issued_gt ops initialKernel p hp,
   fun _ _ => rfl⟩

/-- C5 witness: create, destroy pid 1, create again issues [1, 2]: the
second create does not reuse pid 1 even though it was destroyed. -/
theorem c5_pids_strictly_increasing_witness :
    2 ∈ (runOps [ProcOp.create allOkPlan, ProcOp.destroy 1, ProcOp.create allOkPlan]
      initialKernel).2 ∧ 0 < 2 :=
  ⟨by decide,
   (c5_pids_strictly_increasing
     [ProcOp.create allOkPlan, ProcOp.destroy 1, ProcOp.create allOkPlan]).2.1 2
     (by decide)⟩

/-- C6: for a thread whose back-reference is null and not yet a member
(the direction of the membership invariant the spec states), a
successful proc_addthread followed by proc_remthread restores the
back-reference to null and returns the member array to exactly its
previous value, so the membership size equals its value before the
add. -/
theorem c6_add_then_rem_roundtrip (s : BindState) (procPid t : Nat)
    (h0 : s.t_proc = none) (h1 : t ∉ s.p_threads) :
    proc_addthread true procPid t s = AddOut.ok ⟨s.p_threads ++ [t], some procPid⟩ ∧
    proc_remthread t ⟨s.p_threads ++ [t], some procPid⟩ = RemOut.ok ⟨s.p_threads, none⟩ := by
  constructor
  · simp [proc_addthread, h0]
  · simp [proc_remthread, findThread_append_self t s.p_threads h1,
      eraseIdx_append_length]

/-- C6 witness at a concrete state. -/
theorem c6_add_then_rem_roundtrip_witness :
    ((⟨[7], none⟩ : BindState).t_proc = none ∧ 9 ∉ (⟨[7], none⟩ : BindState).p_threads) ∧
    (proc_addthread true 2 9 ⟨[7], none⟩ = AddOut.ok ⟨[7, 9], some 2⟩ ∧
     proc_remthread 9 ⟨[7, 9], some 2⟩ = RemOut.ok ⟨[7], none⟩) :=
  ⟨⟨rfl, by decide⟩, c6_add_then_rem_roundtrip ⟨[7], none⟩ 2 9 rfl (by decide)⟩

/-- C7: proc_addthread treats a non-null back-reference as a
programming-error abort (KASSERT panic); when the member-array
allocation fails it returns the failure leaving the whole bind state,
in particular the still-null back-reference, unchanged; only on success
does it set the back-reference to the process. -/
theorem c7_addthread_contract (allocOk : Bool) (procPid t : Nat) (s : BindState) :
    (∀ q, s.t_proc = some q → proc_addthread allocOk procPid t s = AddOut.panicked) ∧
    (s.t_proc = none → allocOk = false →
      proc_addthread allocOk procPid t s = AddOut.failed s) ∧
    (s.t_proc = none → allocOk = true →
      proc_addthread allocOk procPid t s = AddOut.ok ⟨s.p_threads ++ [t], some procPid⟩) := by
  refine ⟨?_, ?_, ?_⟩
  · intro q hq
    simp [proc_addthread, hq]
  · intro h0 ha
    subst ha
    simp [proc_addthread, h0]
  · intro h0 ha
    subst ha
    simp [proc_addthread, h0]

/-- C7 witness: a failed allocation returns failure with the state
unchanged, and a non-null back-reference panics. -/
theorem c7_addthread_contract_witness :
    proc_addthread false 1 3 ⟨[], none⟩ = AddOut.failed ⟨[], none⟩ ∧
    proc_addthread true 1 3 ⟨[], some 2⟩ = AddOut.panicked :=
  ⟨(c7_addthread_contract false 1 3 ⟨[], none⟩).2.1 rfl rfl,
   (c7_addthread_contract true 1 3 ⟨[], some 2⟩).1 2 rfl⟩

/-- C8: removing the only registered pid deallocates the global array
and resets it to NULL, and a subsequent proc_create (all allocations
succeeding) lazily recreates the array and registers exactly the new
descriptor, which it returns. -/
theorem c8_registry_lazy_teardown_reinit (k : KernelState) (pid : Nat) (name : String)
    (h : k.allprocs = some [pid]) :
    procarray_allprocs_remove_proc k.allprocs pid = none ∧
    (proc_create allOkPlan name { k with allprocs := none }).k.allprocs =
      some [k.base_pid + 1] ∧
    (proc_create allOkPlan name { k with allprocs := none }).ret =
      some ⟨k.base_pid + 1, name, [], none, none, false, 0, true, true, true, []⟩ := by
  refine ⟨?_, ?_, ?_⟩
  · rw [h]
    have hfind : procarray_proc_index_by_pid [pid] pid = Except.ok 0 := by
      show procIndexGo [pid] pid 64 0 (usub1 1) = Except.ok 0
      have hu : usub1 1 = 0 := by decide
      rw [hu]
      simp [procIndexGo]
    rw [procarray_allprocs_remove_proc, hfind]
    rw [removeAt]
    simp
  · simp [proc_create, allOkPlan, procarray_allprocs_add_proc]
  · simp [proc_create, allOkPlan]

/-- C8 witness at a concrete state: registry [3] with counter 5. -/
theorem c8_registry_lazy_teardown_reinit_witness :
    (⟨5, some [3]⟩ : KernelState).allprocs = some [3] ∧
    (procarray_allprocs_remove_proc (⟨5, some [3]⟩ : KernelState).allprocs 3 = none ∧
     (proc_create allOkPlan "q" ⟨5, none⟩).k.allprocs = some [6] ∧
     (proc_create allOkPlan "q" ⟨5, none⟩).ret =
       some ⟨6, "q", [], none, none, false, 0, true, true, true, []⟩) :=
  ⟨rfl, c8_registry_lazy_teardown_reinit ⟨5, some [3]⟩ 3 "q" rfl⟩

/-- C9: curproc_setas returns exactly the previous address-space value,
afterwards the address-space field holds the new value, and every other
field of the descriptor is unchanged. -/
theorem c9_setas_swap_frame (newas : Option Nat) (proc : ProcObj) :
    (curproc_setas newas proc).1 = proc.p_addrspace ∧
    (curproc_setas newas proc).2.p_addrspace = newas ∧
    (curproc_setas newas proc).2.p_id = proc.p_id ∧
    (curproc_setas newas proc).2.p_name = proc.p_name ∧
    (curproc_setas newas proc).2.p_threads = proc.p_threads ∧
    (curproc_setas newas proc).2.p_cwd = proc.p_cwd ∧
    (curproc_setas newas proc).2.p_did_exit = proc.p_did_exit ∧
    (curproc_setas newas proc).2.p_exitcode = proc.p_exitcode ∧
    (curproc_setas newas proc).2.p_exit_lk = proc.p_exit_lk ∧
    (curproc_setas newas proc).2.p_wait_lk = proc.p_wait_lk ∧
    (curproc_setas newas proc).2.p_wait_cv = proc.p_wait_cv ∧
    (curproc_setas newas proc).2.p_children = proc.p_children :=
  ⟨rfl, rfl, rfl, rfl, rfl, rfl, rfl, rfl, rfl, rfl, rfl, rfl⟩

/-- C10: when the calling process's working directory is null, the
descriptor proc_create_runprogram returns has a null working directory,
the external vnode reference counts are unchanged, and no VOP_INCREF
event occurs in the trace; the increment and pointer copy happen only
on the non-null path.  Holds in both preprocessor configurations. -/
theorem c10_null_cwd_no_incref (uw : Bool) (plan : AllocPlan) (name : String)
    (rc : Nat → Nat) (k : KernelState) (p : ProcObj)
    (h : (proc_create_runprogram uw plan name none rc k).ret = some p) :
    p.p_cwd = none ∧
    (proc_create_runprogram uw plan name none rc k).refcnt = rc ∧
    Ev.incref ∉ (proc_create_runprogram uw plan name none rc k).lockTrace := by
  cases hc : (proc_create plan name k).ret with
  | none =>
    rw [proc_create_runprogram] at h
    simp only [hc] at h
    exact absurd h (by simp)
  | some p0 =>
    simp only [proc_create_runprogram, hc, runprogram_cwd_section] at h ⊢
    have hp : p = { p0 with p_addrspace := none, p_cwd := none } :=
      (Option.some.inj h).symm
    subst hp
    refine ⟨rfl, ?_, ?_⟩
    · simp
    · cases uw <;> simp

/-- C10 witness: a successful all-allocations-succeed creation with a
null current working directory. -/
theorem c10_null_cwd_no_incref_witness :
    (proc_create_runprogram true allOkPlan "p" none (fun _ => 0) initialKernel).ret =
      some ⟨1, "p", [], none, none, false, 0, true, true, true, []⟩ ∧
    ((⟨1, "p", [], none, none, false, 0, true, true, true, []⟩ : ProcObj).p_cwd = none ∧
     (proc_create_runprogram true allOkPlan "p" none (fun _ => 0) initialKernel).refcnt =
       (fun _ => 0) ∧
     Ev.incref ∉ (proc_create_runprogram true allOkPlan "p" none (fun _ => 0)
       initialKernel).lockTrace) :=
  ⟨rfl, c10_null_cwd_no_incref true allOkPlan "p" (fun _ => 0) initialKernel
    ⟨1, "p", [], none, none, false, 0, true, true, true, []⟩ rfl⟩
